import Mathlib

/-!
Verification of the LINE-webhook ingestion pipeline in
`functions/src/index.ts` (the `lineWebhook` handler and its helpers
`appendToGoogleSheet` and `getUserDisplayName`).

The embedding is shallow: the per-request pipeline becomes a pure Lean
function over explicit oracles for the two external services (the LINE
profile lookup and the Google-Sheets append), and the JavaScript builtins
the handler relies on (`JSON.parse`, `JSON.stringify`,
`Date.prototype.toISOString`) are modelled as executable Lean functions.
-/

namespace AiBot

/-! ### A model of JSON values and of the JS builtins the handler uses

`JSON.stringify` on a parsed value emits a canonical serialization with no
whitespace; `JSON.parse` accepts insignificant whitespace around tokens.
The fragment modelled here (strings without escape sequences, natural
numbers, arrays, objects) is the fragment webhook bodies use.
-/

inductive Json where
  | str : String → Json
  | num : Nat → Json
  | arr : List Json → Json
  | obj : List (String × Json) → Json

mutual

/-- Models the JS builtin JSON.stringify on parsed values: canonical
serialization, no whitespace, keys in object order. -/
def jsonStringify : Json → String
  | Json.str s => "\"" ++ s ++ "\""
  | Json.num n => toString n
  | Json.arr xs => "[" ++ stringifyItems xs ++ "]"
  | Json.obj fs => "\x7b" ++ stringifyFields fs ++ "\x7d"

def stringifyItems : List Json → String
  | [] => ""
  | [x] => jsonStringify x
  | x :: y :: rest => jsonStringify x ++ "," ++ stringifyItems (y :: rest)

def stringifyFields : List (String × Json) → String
  | [] => ""
  | [(k, v)] => "\"" ++ k ++ "\":" ++ jsonStringify v
  | (k, v) :: f :: rest =>
      "\"" ++ k ++ "\":" ++ jsonStringify v ++ "," ++ stringifyFields (f :: rest)

end

def isWs (c : Char) : Bool :=
  c = ' ' ∨ c = '\n' ∨ c = '\t' ∨ c = '\r'

def skipWs : List Char → List Char
  | [] => []
  | c :: rest => if isWs c then skipWs rest else c :: rest

/-- Scan a JSON string body up to the closing quote (escape-free fragment). -/
def scanStr : List Char → Option (List Char × List Char)
  | [] => none
  | c :: rest =>
      if c = '"' then some ([], rest)
      else (scanStr rest).map (fun p => (c :: p.1, p.2))

def scanDigits : List Char → List Char × List Char
  | [] => ([], [])
  | c :: rest =>
      if c.isDigit then
        let p := scanDigits rest
        (c :: p.1, p.2)
      else ([], c :: rest)

def digitsToNat (ds : List Char) : Nat :=
  ds.foldl (fun acc c => acc * 10 + (c.toNat - 48)) 0

mutual

/-- Models the JS builtin JSON.parse on the fragment above, fuelled by
nesting depth; accepts insignificant whitespace between tokens. -/
def parseValue : Nat → List Char → Option (Json × List Char)
  | 0, _ => none
  | fuel + 1, cs =>
      match skipWs cs with
      | [] => none
      | c :: rest =>
          if c = '"' then
            (scanStr rest).map (fun p => (Json.str (String.mk p.1), p.2))
          else if c = '[' then
            parseItems fuel (skipWs rest)
          else if c = '\x7b' then
            parseFields fuel (skipWs rest)
          else if c.isDigit then
            let p := scanDigits (c :: rest)
            some (Json.num (digitsToNat p.1), p.2)
          else none

def parseItems : Nat → List Char → Option (Json × List Char)
  | 0, _ => none
  | fuel + 1, cs =>
      match cs with
      | ']' :: rest => some (Json.arr [], rest)
      | _ =>
          match parseValue fuel cs with
          | none => none
          | some (v, rest) =>
              match parseItemsTail fuel (skipWs rest) with
              | none => none
              | some (vs, rest2) => some (Json.arr (v :: vs), rest2)

def parseItemsTail : Nat → List Char → Option (List Json × List Char)
  | 0, _ => none
  | fuel + 1, cs =>
      match cs with
      | ']' :: rest => some ([], rest)
      | ',' :: rest =>
          match parseValue fuel rest with
          | none => none
          | some (v, rest2) =>
              match parseItemsTail fuel (skipWs rest2) with
              | none => none
              | some (vs, rest3) => some (v :: vs, rest3)
      | _ => none

def parseFields : Nat → List Char → Option (Json × List Char)
  | 0, _ => none
  | fuel + 1, cs =>
      match cs with
      | '\x7d' :: rest => some (Json.obj [], rest)
      | _ =>
          match parseOneField fuel cs with
          | none => none
          | some (f, rest) =>
              match parseFieldsTail fuel (skipWs rest) with
              | none => none
              | some (fs, rest2) => some (Json.obj (f :: fs), rest2)

def parseOneField : Nat → List Char → Option ((String × Json) × List Char)
  | 0, _ => none
  | fuel + 1, cs =>
      match cs with
      | '"' :: rest =>
          match scanStr rest with
          | none => none
          | some (key, rest2) =>
              match skipWs rest2 with
              | ':' :: rest3 =>
                  match parseValue fuel rest3 with
                  | none => none
                  | some (v, rest4) => some ((String.mk key, v), rest4)
              | _ => none
      | _ => none

def parseFieldsTail : Nat → List Char → Option (List (String × Json) × List Char)
  | 0, _ => none
  | fuel + 1, cs =>
      match cs with
      | '\x7d' :: rest => some ([], rest)
      | ',' :: rest =>
          match parseOneField fuel (skipWs rest) with
          | none => none
          | some (f, rest2) =>
              match parseFieldsTail fuel (skipWs rest2) with
              | none => none
              | some (fs, rest3) => some (f :: fs, rest3)
      | _ => none

end

/-- JSON.parse of a whole document: the value must consume the input up to
trailing whitespace. -/
def jsonParse (s : String) : Option Json :=
  match parseValue (s.length + 1) s.toList with
  | some (j, rest) => if skipWs rest = [] then some j else none
  | none => none

/-! ### Date.prototype.toISOString

Models the JS builtin for non-negative epoch milliseconds (LINE timestamps
are milliseconds since epoch). Calendar conversion uses the standard
days-to-civil algorithm. -/

def pad2 (n : Nat) : String :=
  if n < 10 then "0" ++ toString n else toString n

def pad3 (n : Nat) : String :=
  if n < 10 then "00" ++ toString n
  else if n < 100 then "0" ++ toString n
  else toString n

def pad4 (n : Nat) : String :=
  if n < 10 then "000" ++ toString n
  else if n < 100 then "00" ++ toString n
  else if n < 1000 then "0" ++ toString n
  else toString n

def civilFromDays (days : Nat) : Nat × Nat × Nat :=
  let z := days + 719468
  let era := z / 146097
  let doe := z % 146097
  let yoe := (doe - doe / 1460 + doe / 36524 - doe / 146096) / 365
  let y := yoe + era * 400
  let doy := doe - (365 * yoe + yoe / 4 - yoe / 100)
  let mp := (5 * doy + 2) / 153
  let d := doy - (153 * mp + 2) / 5 + 1
  let m := if mp < 10 then mp + 3 else mp - 9
  (if m ≤ 2 then y + 1 else y, m, d)

def toISOString (ms : Nat) : String :=
  let msPart := ms % 1000
  let totalSec := ms / 1000
  let s := totalSec % 60
  let totalMin := totalSec / 60
  let mi := totalMin % 60
  let totalHour := totalMin / 60
  let h := totalHour % 24
  let days := totalHour / 24
  let c := civilFromDays days
  pad4 c.1 ++ "-" ++ pad2 c.2.1 ++ "-" ++ pad2 c.2.2 ++ "T" ++
    pad2 h ++ ":" ++ pad2 mi ++ ":" ++ pad2 s ++ "." ++ pad3 msPart ++ "Z"

/-! ### Transport events and the canonical record

`TransportMessage` is the shape of `event.message` as the handler reads it:
a type tag plus the payload fields the switch consults. Fields that JS code
may find `undefined` are `Option String`; string interpolation of an absent
field renders the text "undefined", and the JS or-default treats both
`undefined` and the empty string as falsy. -/

structure TransportMessage where
  type : String
  id : String
  text : String
  fileName : Option String
  address : Option String
  stickerId : Option String

structure TransportEvent where
  type : String
  sourceUserId : String
  timestamp : Nat
  message : TransportMessage

/-- JS template interpolation of a possibly-undefined string field. -/
def jsShow : Option String → String
  | none => "undefined"
  | some s => s

/-- JS or-default: an absent or empty string is falsy. -/
def jsOrDefault (v : Option String) (d : String) : String :=
  match v with
  | none => d
  | some s => if s = "" then d else s

/-- The LineMessage record assembled by the handler (index.ts lines
207-214 and 327-334). -/
structure LineMessage where
  timestamp : Nat
  userId : String
  displayName : String
  messageId : String
  message : String
  messageType : String

/-- The switch on event.message.type (index.ts lines 296-323): derives the
message body string from the transport message. -/
def normalizeBody (m : TransportMessage) : String :=
  if m.type = "text" then m.text
  else if m.type = "image" then "Image sent"
  else if m.type = "video" then "Video sent"
  else if m.type = "audio" then "Audio sent"
  else if m.type = "file" then "File sent: " ++ jsOrDefault m.fileName "Unknown"
  else if m.type = "location" then "Location: " ++ jsShow m.address
  else if m.type = "sticker" then "Sticker: " ++ jsShow m.stickerId
  else "Unsupported message type"

/-- The record's messageType field, assigned before the switch from the raw
transport tag (index.ts line 297). -/
def recordMessageType (m : TransportMessage) : String :=
  m.type

/-- The profile lookup is an oracle: for each userId, either the profile's
displayName or a failure. -/
def ProfileLookup : Type := String → Except String String

/-- getUserDisplayName (index.ts lines 263-275): returns the profile's
displayName, or the sentinel on any lookup failure. -/
def getUserDisplayName (lookup : ProfileLookup) (userId : String) : String :=
  match lookup userId with
  | Except.ok name => name
  | Except.error _ => "Unknown User"

/-- Record assembly for one message event (index.ts lines 292-334). -/
def mkLineMessage (lookup : ProfileLookup) (e : TransportEvent) : LineMessage :=
  { timestamp := e.timestamp
    userId := e.sourceUserId
    displayName := getUserDisplayName lookup e.sourceUserId
    messageId := e.message.id
    message := normalizeBody e.message
    messageType := recordMessageType e.message }

/-- The row appendToGoogleSheet sends to the sheet (index.ts lines
231-240): the fixed 6-column tuple, timestamp rendered by toISOString. -/
def sheetRow (data : LineMessage) : List String :=
  [toISOString data.timestamp,
   data.userId,
   data.displayName,
   data.messageId,
   data.message,
   data.messageType]

/-- The sink is an oracle on append attempts: sinkOk n tells whether the
n-th append call (0-based, counted per request) succeeds; on failure
appendToGoogleSheet rethrows and the row is not written. -/
def SinkOracle : Type := Nat → Bool

/-- Result of the per-event loop: the rows appended to the sink in order,
the number of profile lookups performed, and whether the loop finished
without an exception. -/
structure LoopResult where
  rows : List (List String)
  lookups : Nat
  ok : Bool

/-- The for-loop over request.body.events (index.ts lines 290-345): each
message event is normalized, enriched, and appended, strictly in order;
the first sink failure throws, ending the loop. n counts appends already
performed. Non-message events are skipped. -/
def processEvents (lookup : ProfileLookup) (sinkOk : SinkOracle) :
    List TransportEvent → Nat → LoopResult
  | [], _ => ⟨[], 0, true⟩
  | e :: rest, n =>
      if e.type = "message" then
        let row := sheetRow (mkLineMessage lookup e)
        if sinkOk n then
          let r := processEvents lookup sinkOk rest (n + 1)
          ⟨row :: r.rows, r.lookups + 1, r.ok⟩
        else
          ⟨[], 1, false⟩
      else
        processEvents lookup sinkOk rest n

/-- An inbound webhook request: the signature header, the parsed JSON body
(request.body), and the decoded events field of that body
(request.body.events). -/
structure LineRequest where
  signature : String
  body : Json
  events : List TransportEvent

/-- The body string the handler hands to validateSignature (index.ts line
280): JSON.stringify of the parsed request body. -/
def verifierBodyInput (req : LineRequest) : String :=
  jsonStringify req.body

/-- The HTTP response plus the externally visible effects of one request. -/
structure WebhookResult where
  status : Nat
  body : String
  rows : List (List String)
  lookups : Nat

/-- The lineWebhook handler (index.ts lines 277-352), parameterized by the
SDK signature check and the two service oracles: verify the signature
(401 on failure, nothing processed), then run the per-event loop; 200 when
the loop finishes, 500 when it throws, with no rollback of appended
rows. -/
def lineWebhook (validateSig : String → String → String → Bool)
    (secret : String) (lookup : ProfileLookup) (sinkOk : SinkOracle)
    (req : LineRequest) : WebhookResult :=
  if validateSig (verifierBodyInput req) secret req.signature then
    let r := processEvents lookup sinkOk req.events 0
    if r.ok then ⟨200, "OK", r.rows, r.lookups⟩
    else ⟨500, "Internal Server Error", r.rows, r.lookups⟩
  else
    ⟨401, "Unauthorized", [], 0⟩

/-- The closed set of canonical kinds from the spec's data model. -/
def closedKinds : List String :=
  ["text", "image", "video", "audio", "file", "location", "sticker",
   "unsupported"]

/-- The seven transport tags the switch recognizes. -/
def recognizedTags : List String :=
  ["text", "image", "video", "audio", "file", "location", "sticker"]

/-! ### Concrete environments used by witnesses and counterexamples -/

def alwaysValidSig : String → String → String → Bool := fun _ _ _ => true

def alwaysInvalidSig : String → String → String → Bool := fun _ _ _ => false

def failingLookup : ProfileLookup := fun _ => Except.error "network"

def emptyNameLookup : ProfileLookup := fun _ => Except.ok ""

def aliceLookup : ProfileLookup :=
  fun uid => if uid = "U1" then Except.ok "Alice" else Except.error "not found"

def sinkAlwaysOk : SinkOracle := fun _ => true

/-- A sink whose second append attempt (index 1) fails. -/
def sinkFailsAt1 : SinkOracle := fun n => n == 0

def textMsgHi : TransportMessage :=
  ⟨"text", "M1", "hi", none, none, none⟩

def textEventU1 : TransportEvent :=
  ⟨"message", "U1", 1700000000000, textMsgHi⟩

def reqScenario1 : LineRequest :=
  ⟨"sig", Json.obj [("events", Json.arr [])], [textEventU1]⟩

def flexMsg : TransportMessage :=
  ⟨"flex", "M2", "", none, none, none⟩

def flexEvent : TransportEvent :=
  ⟨"message", "U2", 0, flexMsg⟩

def reqFlex : LineRequest :=
  ⟨"sig", Json.obj [("events", Json.arr [])], [flexEvent]⟩

def stickerMsg42 : TransportMessage :=
  ⟨"sticker", "M4", "", none, none, some "42"⟩

def eventA : TransportEvent :=
  ⟨"message", "UA", 1000, ⟨"text", "MA", "a", none, none, none⟩⟩

def eventB : TransportEvent :=
  ⟨"message", "UB", 2000, ⟨"text", "MB", "b", none, none, none⟩⟩

def eventC : TransportEvent :=
  ⟨"message", "UC", 3000, ⟨"text", "MC", "c", none, none, none⟩⟩

def reqBatch3 : LineRequest :=
  ⟨"sig", Json.obj [("events", Json.arr [])], [eventA, eventB, eventC]⟩

def followEvent : TransportEvent :=
  ⟨"follow", "U3", 5, ⟨"text", "M3", "", none, none, none⟩⟩

def reqFollow : LineRequest :=
  ⟨"sig", Json.obj [("events", Json.arr [])], [followEvent]⟩

def rawBodyC1 : String := "\x7b \"events\": [] \x7d"

def parsedBodyC1 : Json := Json.obj [("events", Json.arr [])]

def reqC1 : LineRequest := ⟨"sig", parsedBodyC1, []⟩

/-! ### Shared lemmas about the per-event loop -/

/-- Every row the loop appends is the sheet row of some message event of
the batch. -/
theorem mem_rows_processEvents (lookup : ProfileLookup) (sinkOk : SinkOracle)
    (events : List TransportEvent) (n : Nat) (row : List String)
    (h : row ∈ (processEvents lookup sinkOk events n).rows) :
    ∃ e, e ∈ events ∧ e.type = "message" ∧
      row = sheetRow (mkLineMessage lookup e) := by
  induction events generalizing n with
  | nil => simp [processEvents] at h
  | cons e rest ih =>
    by_cases he : e.type = "message"
    · cases hs : sinkOk n with
      | true =>
        simp only [processEvents, he, if_pos, hs, if_true, List.mem_cons] at h
        rcases h with h | h
        · exact ⟨e, List.mem_cons_self e rest, he, h⟩
        · obtain ⟨e2, he2, ht2, hr2⟩ := ih (n + 1) h
          exact ⟨e2, List.mem_cons_of_mem e he2, ht2, hr2⟩
      | false =>
        simp [processEvents, he, hs] at h
    · simp only [processEvents, he, if_false, if_neg, not_false_iff] at h
      obtain ⟨e2, he2, ht2, hr2⟩ := ih n h
      exact ⟨e2, List.mem_cons_of_mem e he2, ht2, hr2⟩

/-- When every append succeeds, the loop appends exactly the sheet rows of
the message events, in arrival order, with one lookup per message event. -/
theorem processEvents_all_ok (lookup : ProfileLookup) (sinkOk : SinkOracle)
    (hs : ∀ i, sinkOk i = true) (events : List TransportEvent) (n : Nat) :
    processEvents lookup sinkOk events n =
      ⟨(events.filter (fun e => e.type == "message")).map
         (fun e => sheetRow (mkLineMessage lookup e)),
       (events.filter (fun e => e.type == "message")).length, true⟩ := by
  induction events generalizing n with
  | nil => rfl
  | cons e rest ih =>
    by_cases he : e.type = "message"
    · simp [processEvents, he, hs n, ih (n + 1), List.filter_cons]
    · simp [processEvents, he, ih n, List.filter_cons]

/-- When the first k append attempts succeed and attempt k fails, the loop
stops at the k-th message event (0-based): the first k message rows are
appended, k + 1 lookups were performed, and the loop reports failure. -/
theorem processEvents_fail_at (lookup : ProfileLookup) (sinkOk : SinkOracle)
    (events : List TransportEvent) (k n : Nat)
    (hok : ∀ i, i < k → sinkOk (n + i) = true)
    (hfail : sinkOk (n + k) = false)
    (hk : k < (events.filter (fun e => e.type == "message")).length) :
    processEvents lookup sinkOk events n =
      ⟨((events.filter (fun e => e.type == "message")).take k).map
         (fun e => sheetRow (mkLineMessage lookup e)), k + 1, false⟩ := by
  induction events generalizing k n with
  | nil => simp at hk
  | cons e rest ih =>
    by_cases he : e.type = "message"
    · cases k with
      | zero =>
        have h0 : sinkOk n = false := by simpa using hfail
        simp [processEvents, he, h0]
      | succ j =>
        have h0 : sinkOk n = true := by simpa using hok 0 (Nat.succ_pos j)
        have hok2 : ∀ i, i < j → sinkOk (n + 1 + i) = true := by
          intro i hi
          have harith : n + 1 + i = n + (i + 1) := by omega
          rw [harith]
          exact hok (i + 1) (by omega)
        have hfail2 : sinkOk (n + 1 + j) = false := by
          have harith : n + 1 + j = n + (j + 1) := by omega
          rw [harith]; exact hfail
        have hk2 : j < (rest.filter (fun e => e.type == "message")).length := by
          simp [List.filter_cons, he] at hk
          omega
        simp [processEvents, he, h0, ih j (n + 1) hok2 hfail2 hk2,
          List.filter_cons]
    · have hk2 : k < (rest.filter (fun e => e.type == "message")).length := by
        simpa [List.filter_cons, he] using hk
      simp [processEvents, he, ih k n hok hfail hk2, List.filter_cons]

/-- When the batch contains no message event, the loop appends nothing and
performs no lookup. -/
theorem processEvents_no_message (lookup : ProfileLookup) (sinkOk : SinkOracle)
    (events : List TransportEvent) (n : Nat)
    (h : ∀ e, e ∈ events → e.type ≠ "message") :
    processEvents lookup sinkOk events n = ⟨[], 0, true⟩ := by
  induction events generalizing n with
  | nil => rfl
  | cons e rest ih =>
    have he : e.type ≠ "message" := h e (List.mem_cons_self e rest)
    simp only [processEvents, he, if_neg, not_false_iff]
    exact ih n (fun e2 he2 => h e2 (List.mem_cons_of_mem e he2))

/-! ### Claims -/

/-- C1: the claim says the body handed to the Signature Verifier equals the
original raw request bytes. The handler instead verifies
JSON.stringify(request.body), a re-serialization of the parsed body: on a
raw body containing insignificant whitespace, the verifier input differs
from the bytes the sender signed. -/
theorem c1_verifier_input_is_reserialized_body :
    jsonParse rawBodyC1 = some parsedBodyC1 ∧
    verifierBodyInput reqC1 = "\x7b\"events\":[]\x7d" ∧
    verifierBodyInput reqC1 ≠ rawBodyC1 :=
  ⟨by rfl, by rfl, by decide⟩

/-- C2 counterexample: a validly-signed message event with the
unrecognized tag "flex" reaches the sink with kind column "flex", which is
outside the closed kind set and is not "unsupported". -/
theorem c2_counterexample :
    (lineWebhook alwaysValidSig "" failingLookup sinkAlwaysOk reqFlex).rows =
      [["1970-01-01T00:00:00.000Z", "U2", "Unknown User", "M2",
        "Unsupported message type", "flex"]] ∧
    "flex" ∉ closedKinds :=
  ⟨by rfl, by decide⟩

/-- C2 (amended): every record reaching the sink carries the transport
message-type tag verbatim in its kind column; for the seven recognized
tags this lies in the closed kind set, but an unrecognized tag is passed
through rather than mapped to "unsupported". -/
theorem c2_kind_is_raw_tag (lookup : ProfileLookup) (sinkOk : SinkOracle)
    (events : List TransportEvent) (n : Nat) (row : List String)
    (h : row ∈ (processEvents lookup sinkOk events n).rows) :
    ∃ e, e ∈ events ∧ e.type = "message" ∧
      row.get? 5 = some e.message.type ∧
      (e.message.type ∈ recognizedTags → e.message.type ∈ closedKinds) := by
  obtain ⟨e, he, ht, hr⟩ := mem_rows_processEvents lookup sinkOk events n row h
  subst hr
  refine ⟨e, he, ht, rfl, ?_⟩
  intro hrec
  simp only [recognizedTags, List.mem_cons, List.not_mem_nil, or_false] at hrec
  simp only [closedKinds, List.mem_cons, List.not_mem_nil, or_false]
  tauto

theorem c2_kind_is_raw_tag_witness :
    ∃ e, e ∈ reqFlex.events ∧ e.type = "message" ∧
      (sheetRow (mkLineMessage failingLookup flexEvent)).get? 5 =
        some e.message.type ∧
      (e.message.type ∈ recognizedTags → e.message.type ∈ closedKinds) :=
  c2_kind_is_raw_tag failingLookup sinkAlwaysOk reqFlex.events 0
    (sheetRow (mkLineMessage failingLookup flexEvent)) (by decide)

/-- C3: when the profile lookup fails for a senderId, getUserDisplayName
returns the sentinel "Unknown User" instead of propagating the error, and
the record for that event is still assembled and appended to the sink. -/
theorem c3_enrichment_failure_degrades (lookup : ProfileLookup)
    (uid err : String) (hfail : lookup uid = Except.error err)
    (e : TransportEvent) (he : e.type = "message") (hu : e.sourceUserId = uid)
    (sinkOk : SinkOracle) (hs : sinkOk 0 = true) (rest : List TransportEvent) :
    getUserDisplayName lookup uid = "Unknown User" ∧
    (mkLineMessage lookup e).displayName = "Unknown User" ∧
    (processEvents lookup sinkOk (e :: rest) 0).rows.head? =
      some (sheetRow (mkLineMessage lookup e)) := by
  have h1 : getUserDisplayName lookup uid = "Unknown User" := by
    simp [getUserDisplayName, hfail]
  refine ⟨h1, ?_, ?_⟩
  · simp [mkLineMessage, hu, h1]
  · simp [processEvents, he, hs]

theorem c3_enrichment_failure_degrades_witness :
    getUserDisplayName failingLookup "U2" = "Unknown User" ∧
    (mkLineMessage failingLookup flexEvent).displayName = "Unknown User" ∧
    (processEvents failingLookup sinkAlwaysOk [flexEvent] 0).rows.head? =
      some (sheetRow (mkLineMessage failingLookup flexEvent)) :=
  c3_enrichment_failure_degrades failingLookup "U2" "network" rfl flexEvent
    rfl rfl sinkAlwaysOk rfl []

/-- C4: normalization produces exactly the body strings of the kind table
(text keeps the literal text; image, video and audio get fixed
placeholders; file, location and sticker interpolate their payload field),
and any unrecognized tag yields the fixed body "Unsupported message type";
normalizeBody is a total function, so normalization never throws. -/
theorem c4_normalize_table (m : TransportMessage) :
    (m.type = "text" → normalizeBody m = m.text) ∧
    (m.type = "image" → normalizeBody m = "Image sent") ∧
    (m.type = "video" → normalizeBody m = "Video sent") ∧
    (m.type = "audio" → normalizeBody m = "Audio sent") ∧
    (m.type = "file" →
      normalizeBody m = "File sent: " ++ jsOrDefault m.fileName "Unknown") ∧
    (m.type = "location" →
      normalizeBody m = "Location: " ++ jsShow m.address) ∧
    (m.type = "sticker" →
      normalizeBody m = "Sticker: " ++ jsShow m.stickerId) ∧
    (m.type ∉ recognizedTags →
      normalizeBody m = "Unsupported message type") := by
  refine ⟨fun h => by simp [normalizeBody, h],
          fun h => by simp [normalizeBody, h],
          fun h => by simp [normalizeBody, h],
          fun h => by simp [normalizeBody, h],
          fun h => by simp [normalizeBody, h],
          fun h => by simp [normalizeBody, h],
          fun h => by simp [normalizeBody, h],
          fun h => ?_⟩
  simp only [recognizedTags, List.mem_cons, List.not_mem_nil, or_false,
    not_or] at h
  obtain ⟨h1, h2, h3, h4, h5, h6, h7⟩ := h
  simp [normalizeBody, h1, h2, h3, h4, h5, h6, h7]

theorem c4_normalize_table_witness :
    normalizeBody stickerMsg42 = "Sticker: 42" := by
  have h := (c4_normalize_table stickerMsg42).2.2.2.2.2.2.1 rfl
  simpa using h

/-- C5: if the k-th append (0-based among message events) fails, the
handler processes no later event (exactly k + 1 lookups happened), the
whole request gets a 500 "Internal Server Error" response, and the rows of
the k earlier message events stay appended, with no rollback. -/
theorem c5_sink_failure_aborts_batch
    (validateSig : String → String → String → Bool) (secret : String)
    (lookup : ProfileLookup) (sinkOk : SinkOracle) (req : LineRequest)
    (k : Nat)
    (hsig : validateSig (verifierBodyInput req) secret req.signature = true)
    (hok : ∀ i, i < k → sinkOk i = true)
    (hfail : sinkOk k = false)
    (hk : k < (req.events.filter (fun e => e.type == "message")).length) :
    lineWebhook validateSig secret lookup sinkOk req =
      ⟨500, "Internal Server Error",
       ((req.events.filter (fun e => e.type == "message")).take k).map
         (fun e => sheetRow (mkLineMessage lookup e)),
       k + 1⟩ := by
  have hok0 : ∀ i, i < k → sinkOk (0 + i) = true := by
    intro i hi; simpa using hok i hi
  have hfail0 : sinkOk (0 + k) = false := by simpa using hfail
  simp [lineWebhook, hsig,
    processEvents_fail_at lookup sinkOk req.events k 0 hok0 hfail0 hk]

theorem c5_sink_failure_aborts_batch_witness :
    lineWebhook alwaysValidSig "" failingLookup sinkFailsAt1 reqBatch3 =
      ⟨500, "Internal Server Error",
       ((reqBatch3.events.filter (fun e => e.type == "message")).take 1).map
         (fun e => sheetRow (mkLineMessage failingLookup e)),
       2⟩ :=
  c5_sink_failure_aborts_batch alwaysValidSig "" failingLookup sinkFailsAt1
    reqBatch3 1 (by rfl) (by decide) (by rfl) (by decide)

/-- C6: a request whose signature fails verification is answered with 401
"Unauthorized", with zero sink appends and zero profile lookups — no event
of the batch is processed. -/
theorem c6_invalid_signature_rejected
    (validateSig : String → String → String → Bool) (secret : String)
    (lookup : ProfileLookup) (sinkOk : SinkOracle) (req : LineRequest)
    (h : validateSig (verifierBodyInput req) secret req.signature = false) :
    lineWebhook validateSig secret lookup sinkOk req =
      ⟨401, "Unauthorized", [], 0⟩ := by
  simp [lineWebhook, h]

theorem c6_invalid_signature_rejected_witness :
    lineWebhook alwaysInvalidSig "" failingLookup sinkAlwaysOk reqScenario1 =
      ⟨401, "Unauthorized", [], 0⟩ :=
  c6_invalid_signature_rejected alwaysInvalidSig "" failingLookup sinkAlwaysOk
    reqScenario1 rfl

/-- C7: every sink row is the fixed 6-column tuple (ISO-8601 timestamp,
senderId, displayName, messageId, body, kind) in that order, and the
scenario-1 text message "hi" from "U1" (messageId "M1", timestamp
1700000000000, lookup resolving to "Alice") yields exactly the row
["2023-11-14T22:13:20.000Z", "U1", "Alice", "M1", "hi", "text"]. -/
theorem c7_row_tuple_and_scenario1 :
    (∀ d : LineMessage, sheetRow d =
      [toISOString d.timestamp, d.userId, d.displayName, d.messageId,
       d.message, d.messageType]) ∧
    lineWebhook alwaysValidSig "" aliceLookup sinkAlwaysOk reqScenario1 =
      ⟨200, "OK",
       [["2023-11-14T22:13:20.000Z", "U1", "Alice", "M1", "hi", "text"]],
       1⟩ :=
  ⟨fun _ => rfl, by rfl⟩

/-- C8 counterexample: a successful profile lookup returning the empty
string is passed through verbatim, so a record reaches the sink with an
empty displayName, against the claim that displayName is never empty. -/
theorem c8_counterexample :
    (lineWebhook alwaysValidSig "" emptyNameLookup sinkAlwaysOk
        reqScenario1).rows =
      [["2023-11-14T22:13:20.000Z", "U1", "", "M1", "hi", "text"]] ∧
    (["2023-11-14T22:13:20.000Z", "U1", "", "M1", "hi", "text"].get? 2) =
      some "" :=
  ⟨by rfl, by rfl⟩

/-- C8 (amended): every record reaching the sink has its displayName equal
to whatever the profile lookup returned for the sender (never undefined),
and on any lookup failure it is the non-empty sentinel "Unknown User"; a
successful lookup is passed through verbatim, even when empty. -/
theorem c8_displayname_from_lookup_or_sentinel (lookup : ProfileLookup)
    (sinkOk : SinkOracle) (events : List TransportEvent) (n : Nat)
    (row : List String)
    (h : row ∈ (processEvents lookup sinkOk events n).rows) :
    ∃ e, e ∈ events ∧
      row.get? 2 = some (getUserDisplayName lookup e.sourceUserId) ∧
      (∀ err, lookup e.sourceUserId = Except.error err →
        row.get? 2 = some "Unknown User" ∧ "Unknown User" ≠ "") := by
  obtain ⟨e, he, ht, hr⟩ := mem_rows_processEvents lookup sinkOk events n row h
  subst hr
  refine ⟨e, he, rfl, ?_⟩
  intro err herr
  exact ⟨by simp [sheetRow, mkLineMessage, getUserDisplayName, herr],
    by decide⟩

theorem c8_displayname_from_lookup_or_sentinel_witness :
    ∃ e, e ∈ reqFlex.events ∧
      (sheetRow (mkLineMessage failingLookup flexEvent)).get? 2 =
        some (getUserDisplayName failingLookup e.sourceUserId) ∧
      (∀ err, failingLookup e.sourceUserId = Except.error err →
        (sheetRow (mkLineMessage failingLookup flexEvent)).get? 2 =
          some "Unknown User" ∧ "Unknown User" ≠ "") :=
  c8_displayname_from_lookup_or_sentinel failingLookup sinkAlwaysOk
    reqFlex.events 0 (sheetRow (mkLineMessage failingLookup flexEvent))
    (by decide)

/-- C9: within one request the events are processed strictly sequentially,
so when every append succeeds the sink rows are exactly the rows of the
message events in arrival order. -/
theorem c9_append_order_matches_arrival
    (validateSig : String → String → String → Bool) (secret : String)
    (lookup : ProfileLookup) (sinkOk : SinkOracle) (req : LineRequest)
    (hsig : validateSig (verifierBodyInput req) secret req.signature = true)
    (hs : ∀ i, sinkOk i = true) :
    (lineWebhook validateSig secret lookup sinkOk req).rows =
      (req.events.filter (fun e => e.type == "message")).map
        (fun e => sheetRow (mkLineMessage lookup e)) := by
  simp [lineWebhook, hsig, processEvents_all_ok lookup sinkOk hs req.events 0]

theorem c9_append_order_matches_arrival_witness :
    (lineWebhook alwaysValidSig "" failingLookup sinkAlwaysOk reqBatch3).rows =
      (reqBatch3.events.filter (fun e => e.type == "message")).map
        (fun e => sheetRow (mkLineMessage failingLookup e)) :=
  c9_append_order_matches_arrival alwaysValidSig "" failingLookup sinkAlwaysOk
    reqBatch3 rfl (fun _ => rfl)

/-- C10: a validly-signed request whose batch is empty or contains no
"message"-type event performs zero profile lookups and zero sink appends
and is answered 200 "OK". -/
theorem c10_no_message_events_is_noop
    (validateSig : String → String → String → Bool) (secret : String)
    (lookup : ProfileLookup) (sinkOk : SinkOracle) (req : LineRequest)
    (hsig : validateSig (verifierBodyInput req) secret req.signature = true)
    (hnone : ∀ e, e ∈ req.events → e.type ≠ "message") :
    lineWebhook validateSig secret lookup sinkOk req = ⟨200, "OK", [], 0⟩ := by
  simp [lineWebhook, hsig,
    processEvents_no_message lookup sinkOk req.events 0 hnone]

theorem c10_no_message_events_is_noop_witness :
    lineWebhook alwaysValidSig "" failingLookup sinkAlwaysOk reqFollow =
      ⟨200, "OK", [], 0⟩ :=
  c10_no_message_events_is_noop alwaysValidSig "" failingLookup sinkAlwaysOk
    reqFollow rfl (by decide)

end AiBot
